import Mathlib

/-!
Verification of the cloudknot resource-lifecycle reconciliation engine
(files `cloudknot/aws/ec2.py` and `cloudknot/aws/iam.py`).

The Python classes `Vpc`, `SecurityGroup` and `IamRole` are embedded as
pure Lean functions over an explicit remote-provider state, a local
registry and a trace of issued remote calls.  Machine behaviour that the
source delegates to external collaborators (the AWS gateway, the config
file) is modelled by simple deterministic state operations; identifiers
minted by the remote side are supplied through an `AwsEnv` record.
-/

/-- Error taxonomy of the source: Python `ValueError`,
`ResourceExistsException`, `ResourceDoesNotExistException`,
`CannotDeleteResourceException`, `ResourceClobberedException`, botocore
client errors carrying a code, Python `AttributeError` (attribute lookup
failure) and `KeyError`, and tenacity's `RetryError`. -/
inductive Err where
  | valueError (msg : String)
  | resourceExists (resourceId : String)
  | resourceDoesNotExist (resourceId : String)
  | cannotDeleteResource (ids : List String)
  | resourceClobbered (resourceId : String)
  | clientError (code : String)
  | attributeError (attr : String)
  | keyError (key : String)
  | retryError
deriving Repr, DecidableEq

deriving instance DecidableEq for Except

/-- Whether an `Except` result is the resource-conflict error
(`ResourceExistsException`) of the source's error taxonomy. -/
def Except.isConflictErr {α : Type} : Except Err α → Bool
  | .error (.resourceExists _) => true
  | _ => false

/-- The local persisted registry (`cloudknot.config`): a list of
(section name, key, value) entries. -/
structure Registry where
  entries : List (String × String × String)
deriving Repr, DecidableEq

/-- `cloudknot.config.add_resource(section, key, value)`: configparser
`set` semantics — replace an existing entry for the key in that section,
otherwise append. -/
def addResource (r : Registry) (sec key value : String) : Registry :=
  if r.entries.any (fun e => e.1 == sec && e.2.1 == key) then
    ⟨r.entries.map (fun e =>
      if e.1 == sec && e.2.1 == key then (sec, key, value) else e)⟩
  else
    ⟨r.entries ++ [(sec, key, value)]⟩

/-- `cloudknot.config.remove_resource(section, key)`: drop every entry
for the key in that section. -/
def removeResource (r : Registry) (sec key : String) : Registry :=
  ⟨r.entries.filter (fun e => !(e.1 == sec && e.2.1 == key))⟩

/-- Number of registry entries for a given key in a given section. -/
def countEntries (r : Registry) (sec key : String) : Nat :=
  (r.entries.filter (fun e => e.1 == sec && e.2.1 == key)).length

/-- An IPv4 CIDR block `addr/plen`, as held by Python's
`ipaddress.IPv4Network`. -/
structure Cidr where
  addr : Nat
  plen : Nat
deriving Repr, DecidableEq

/-- `IPv4Network.num_addresses`: the number of addresses of the block. -/
def Cidr.size (c : Cidr) : Nat := 2 ^ (32 - c.plen)

/-- An address belongs to the block. -/
def Cidr.containsAddr (c : Cidr) (x : Nat) : Prop :=
  c.addr ≤ x ∧ x < c.addr + c.size

instance (c : Cidr) (x : Nat) : Decidable (c.containsAddr x) := by
  unfold Cidr.containsAddr; infer_instance

/-- The successive subnets of a block when `d` extra prefix bits are
used: block `i` starts `i` subnet-sizes after the parent address. -/
def Cidr.subnetBlocks (c : Cidr) (d : Nat) : List Cidr :=
  (List.range (2 ^ d)).map
    (fun i => ⟨c.addr + i * 2 ^ (32 - c.plen - d), c.plen + d⟩)

/-- `IPv4Network.subnets(prefixlen_diff=d)`: errors when the new prefix
length would exceed 32, otherwise yields the subnet blocks. -/
def cidrSubnets (c : Cidr) (d : Nat) : Except Err (List Cidr) :=
  if c.plen + d > 32 then
    .error (.valueError "new prefix length must be no greater than 32")
  else
    .ok (c.subnetBlocks d)

/-- Python `ceil(log2 n)`: a math-domain error at zero, otherwise the
ceiling base-2 logarithm (`Nat.clog 2`). -/
def ceilLog2 (n : Nat) : Except Err Nat :=
  if n = 0 then .error (.valueError "math domain error")
  else .ok (Nat.clog 2 n)

/-- `Vpc._add_subnets` (ec2.py lines 288-360), address arithmetic only:
guard that the CIDR block has at least as many addresses as availability
zones, compute the extra prefix length as the ceiling log2 of the zone
count, list the subnets of the block at that extra prefix length and
truncate to the first `numZones` blocks. -/
def vpcAddSubnets (c : Cidr) (numZones : Nat) : Except Err (List Cidr) :=
  if c.size < numZones then
    .error (.valueError
      "IPv4 CIDR block does not have enough addresses for each availability zone")
  else
    match ceilLog2 numZones with
    | .error e => .error e
    | .ok d =>
      match cidrSubnets c d with
      | .error e => .error e
      | .ok subs => .ok (subs.take numZones)

/-- A key-value tag on a remote EC2 resource. -/
structure Tag where
  key : String
  value : String
deriving Repr, DecidableEq

/-- A VPC as held by the remote provider. -/
structure RVpc where
  vpcId : String
  cidrBlock : Cidr
  instanceTenancy : String
  tags : List Tag
deriving Repr, DecidableEq

/-- A subnet as held by the remote provider. -/
structure RSubnet where
  subnetId : String
  vpcId : String
deriving Repr, DecidableEq

/-- A security group as held by the remote provider. -/
structure RSecurityGroup where
  groupId : String
  groupName : String
  vpcId : String
  description : String
deriving Repr, DecidableEq

/-- An IAM role as held by the remote provider.  `assumeRoleService` is
the `Principal.Service` of the first statement of the role's assume-role
policy document. -/
structure RRole where
  roleName : String
  arn : String
  description : String
  assumeRoleService : String
  attachedPolicies : List String
deriving Repr, DecidableEq

/-- An entry of the remote IAM managed-policy catalog. -/
structure RPolicy where
  policyName : String
  arn : String
deriving Repr, DecidableEq

/-- An EC2 compute instance as held by the remote provider. -/
structure RInstance where
  instanceId : String
  vpcId : String
  securityGroups : List String
deriving Repr, DecidableEq

/-- A batch compute environment as held by the remote provider. -/
structure RComputeEnv where
  ceName : String
  arn : String
  securityGroupIds : List String
  serviceRole : String
  status : String
deriving Repr, DecidableEq

/-- State of the remote provider.  The policy catalog is kept as the
pages returned by the paginated `list_policies` calls.  Instance
profiles are (profile name, attached role name) pairs. -/
structure RemoteState where
  vpcs : List RVpc
  subnets : List RSubnet
  securityGroups : List RSecurityGroup
  roles : List RRole
  policyPages : List (List RPolicy)
  instances : List RInstance
  computeEnvs : List RComputeEnv
  instanceProfiles : List (String × String)
deriving Repr, DecidableEq

/-- Identifiers minted by the remote provider during creation calls. -/
structure AwsEnv where
  newVpcId : String
  newSgId : String
  zones : List String
deriving Repr, DecidableEq

/-- Canonical VPC attributes gathered by `Vpc._exists_already`. -/
structure VpcAttrs where
  name : String
  ipv4Cidr : Cidr
  instanceTenancy : String
  vpcId : String
  subnetIds : List String
deriving Repr, DecidableEq

/-- Outcome of the VPC identity resolver: `Found(attributes)` or
`NotFound`. -/
inductive VpcResolved where
  | found (a : VpcAttrs)
  | notFound
deriving Repr, DecidableEq

/-- Attribute-gathering half of `Vpc._exists_already` (ec2.py lines
195-242): read CIDR, id and tenancy from the discovered VPC; when a
`Name` tag is present use its value as the name, otherwise back-fill the
synthetic name and an `owner` tag on the remote resource; list the VPC's
subnets. -/
def vpcGather (st : RemoteState) (v : RVpc) (calls : List String) :
    VpcResolved × RemoteState × List String :=
  let subnetIds :=
    (st.subnets.filter (fun s => s.vpcId == v.vpcId)).map (·.subnetId)
  match v.tags.find? (fun t => t.key == "Name") with
  | some t =>
    (.found ⟨t.value, v.cidrBlock, v.instanceTenancy, v.vpcId, subnetIds⟩,
      st, calls ++ ["describe_subnets"])
  | none =>
    let nm := "cloudknot-acquired-pre-existing-vpc"
    let st1 := { st with
      vpcs := st.vpcs.map (fun w =>
        if w.vpcId == v.vpcId then
          { w with tags := w.tags ++ [⟨"owner", "cloudknot"⟩, ⟨"Name", nm⟩] }
        else w) }
    (.found ⟨nm, v.cidrBlock, v.instanceTenancy, v.vpcId, subnetIds⟩,
      st1, calls ++ ["create_tags", "describe_subnets"])

/-- `Vpc._exists_already` (ec2.py lines 129-244): describe by id
(`InvalidVpcID.NotFound` maps to not-found), or look the id up through
the `Name` tag filter; on a hit gather the canonical attributes. -/
def vpcExistsAlready (st : RemoteState) (vpcId? name? : Option String) :
    VpcResolved × RemoteState × List String :=
  match vpcId? with
  | some vid =>
    match st.vpcs.find? (fun v => v.vpcId == vid) with
    | some v => vpcGather st v ["describe_vpcs"]
    | none => (.notFound, st, ["describe_vpcs"])
  | none =>
    let nm := name?.getD ""
    match st.vpcs.find?
        (fun v => v.tags.any (fun t => t.key == "Name" && t.value == nm)) with
    | some v => vpcGather st v ["describe_tags", "describe_vpcs"]
    | none => (.notFound, st, ["describe_tags"])

/-- In-memory `Vpc` instance: the read-only properties of the Python
object.  The `name` and `clobbered` fields live on the `NamedObject`
base class (base_classes.py, not under src/); modelled from the spec,
which records a `name` and a `clobbered` flag (initially false) on every
managed resource. -/
structure VpcInstance where
  name : String
  preExisting : Bool
  ipv4Cidr : Cidr
  instanceTenancy : String
  vpcId : String
  subnetIds : List String
  clobbered : Bool
deriving Repr, DecidableEq

/-- Output of a `Vpc` lifecycle operation: the result (or raised error),
the remote state, the local registry and the trace of remote calls
issued, in order. -/
structure VpcOut where
  result : Except Err VpcInstance
  remote : RemoteState
  registry : Registry
  calls : List String
deriving Repr, DecidableEq

/-- Default VPC CIDR block `10.0.0.0/16` (ec2.py line 106). -/
def defaultVpcCidr : Cidr := ⟨167772160, 16⟩

/-- `Vpc._create` and `Vpc._add_subnets` (ec2.py lines 246-360): create
the VPC, wait, tag it, register it, then carve one subnet per
availability zone, wait for the subnets and tag them.  Subnet ids are
minted from the new VPC id. -/
def vpcCreate (st : RemoteState) (reg : Registry) (env : AwsEnv)
    (name : String) (cidr : Cidr) (tenancy : String) : VpcOut :=
  let vid := env.newVpcId
  let st1 := { st with vpcs := st.vpcs ++
    [⟨vid, cidr, tenancy, [⟨"owner", "cloudknot"⟩, ⟨"Name", name⟩]⟩] }
  let reg1 := addResource reg "vpc" vid name
  let calls1 := ["create_vpc", "wait_vpc_exists", "wait_vpc_available",
    "create_tags"]
  match vpcAddSubnets cidr env.zones.length with
  | .error e => ⟨.error e, st1, reg1, calls1 ++ ["describe_availability_zones"]⟩
  | .ok blocks =>
    let subnetIds := (List.range (env.zones.zip blocks).length).map
      (fun i => vid ++ "-subnet-" ++ toString i)
    let newSubnets : List RSubnet := subnetIds.map (fun sid => ⟨sid, vid⟩)
    let st2 := { st1 with subnets := st1.subnets ++ newSubnets }
    let calls2 := calls1 ++ ["describe_availability_zones"] ++
      subnetIds.map (fun _ => "create_subnet") ++
      ["wait_subnet_available", "create_tags"]
    ⟨.ok ⟨name, false, cidr, tenancy, vid, subnetIds, false⟩, st2, reg1, calls2⟩

/-- `Vpc.__init__` (ec2.py lines 30-120): require a name or id, reject
id together with any other input, resolve, then adopt (conflict when
creation parameters were also given; missing id is an error) or create
after validating tenancy and defaulting the CIDR block.  The CIDR input
arrives pre-parsed, so the string-format validation of lines 95-104 has
no counterpart here. -/
def vpcInit (st : RemoteState) (reg : Registry) (env : AwsEnv)
    (vpcId? name? : Option String) (ipv4Cidr? : Option Cidr)
    (instanceTenancy? : Option String) : VpcOut :=
  if !(vpcId?.isSome || name?.isSome) then
    ⟨.error (.valueError "name or vpc_id is required."), st, reg, []⟩
  else if vpcId?.isSome &&
      (name?.isSome || ipv4Cidr?.isSome || instanceTenancy?.isSome) then
    ⟨.error (.valueError
      "You must specify either a VPC id for an existing VPC or input parameters for a new VPC. You cannot do both."),
      st, reg, []⟩
  else
    match vpcExistsAlready st vpcId? name? with
    | (.found a, st1, calls1) =>
      if ipv4Cidr?.isSome || instanceTenancy?.isSome then
        ⟨.error (.resourceExists a.vpcId), st1, reg, calls1⟩
      else
        ⟨.ok ⟨a.name, true, a.ipv4Cidr, a.instanceTenancy, a.vpcId,
            a.subnetIds, false⟩,
          st1, addResource reg "vpc" a.vpcId a.name, calls1⟩
    | (.notFound, st1, calls1) =>
      match vpcId? with
      | some vid => ⟨.error (.resourceDoesNotExist vid), st1, reg, calls1⟩
      | none =>
        let cidr := ipv4Cidr?.getD defaultVpcCidr
        match instanceTenancy? with
        | some t =>
          if t == "default" || t == "dedicated" then
            let o := vpcCreate st1 reg env (name?.getD "") cidr t
            { o with calls := calls1 ++ o.calls }
          else
            ⟨.error (.valueError
              "If provided, instance tenancy must be one of default, dedicated."),
              st1, reg, calls1⟩
        | none =>
          let o := vpcCreate st1 reg env (name?.getD "") cidr "default"
          { o with calls := calls1 ++ o.calls }

/-- Result of a destroy operation: outcome, remote state, registry, the
(possibly updated) in-memory instance, and the remote-call trace. -/
structure ClobberOut (I : Type) where
  result : Except Err Unit
  remote : RemoteState
  registry : Registry
  inst : I
  calls : List String
deriving Repr, DecidableEq

/-- `Vpc.clobber` (ec2.py lines 362-404): delete each subnet, delete the
VPC — a dependency violation (any security group still in the VPC)
gathers the dependent security-group ids and raises the not-deletable
error — and on success remove the registry entry.  The method neither
checks nor sets a clobbered flag, so the instance is returned
unchanged. -/
def vpcClobber (st : RemoteState) (reg : Registry) (v : VpcInstance) :
    ClobberOut VpcInstance :=
  let st1 := { st with
    subnets := st.subnets.filter (fun s => !v.subnetIds.contains s.subnetId) }
  let callsSub := v.subnetIds.map (fun _ => "delete_subnet")
  if st1.securityGroups.any (fun g => g.vpcId == v.vpcId) then
    let ids := (st1.securityGroups.filter
      (fun g => g.vpcId == v.vpcId)).map (·.groupId)
    ⟨.error (.cannotDeleteResource ids), st1, reg, v,
      callsSub ++ ["delete_vpc", "describe_security_groups"]⟩
  else
    ⟨.ok (), { st1 with vpcs := st1.vpcs.filter (fun w => !(w.vpcId == v.vpcId)) },
      removeResource reg "vpc" v.vpcId, v, callsSub ++ ["delete_vpc"]⟩

/-- Canonical security-group attributes gathered by
`SecurityGroup._exists_already`. -/
structure SgAttrs where
  name : String
  vpcId : String
  description : String
  securityGroupId : String
deriving Repr, DecidableEq

/-- Outcome of the security-group identity resolver. -/
inductive SgResolved where
  | found (a : SgAttrs)
  | notFound
deriving Repr, DecidableEq

/-- `SecurityGroup._exists_already` (ec2.py lines 505-571): describe by
group id (`InvalidGroup.NotFound` / `InvalidGroupId.Malformed` map to
not-found) or by the group-name plus vpc-id filter; a hit returns name,
vpc id, description and group id. -/
def sgExistsAlready (st : RemoteState) (sgId? name? vpcId? : Option String) :
    SgResolved × List String :=
  match sgId? with
  | some gid =>
    match st.securityGroups.find? (fun g => g.groupId == gid) with
    | some g =>
      (.found ⟨g.groupName, g.vpcId, g.description, g.groupId⟩,
        ["describe_security_groups"])
    | none => (.notFound, ["describe_security_groups"])
  | none =>
    match st.securityGroups.find?
        (fun g => g.groupName == name?.getD "" && g.vpcId == vpcId?.getD "") with
    | some g =>
      (.found ⟨g.groupName, g.vpcId, g.description, g.groupId⟩,
        ["describe_security_groups"])
    | none => (.notFound, ["describe_security_groups"])

/-- In-memory `SecurityGroup` instance.  `vpc` holds the `Vpc` object
reference stored by the constructor (`None` on adoption). -/
structure SgInstance where
  name : String
  preExisting : Bool
  vpc : Option VpcInstance
  vpcId : String
  description : String
  securityGroupId : String
  clobbered : Bool
deriving Repr, DecidableEq

/-- Output of a `SecurityGroup` lifecycle operation. -/
structure SgOut where
  result : Except Err SgInstance
  remote : RemoteState
  registry : Registry
  calls : List String
deriving Repr, DecidableEq

/-- Attribute lookup on the EC2 client's exceptions factory.  botocore
exposes `ClientError` (and the modeled error shapes) as attributes;
looking up any other name — in particular the misspelt `ClientErro` of
ec2.py line 617 — raises `AttributeError`. -/
def ec2ExceptionsAttr (attr : String) : Except Err String :=
  if attr == "ClientError" then .ok "ClientError"
  else .error (.attributeError attr)

/-- `SecurityGroup._create` (ec2.py lines 573-644): create the group,
then build the tenacity retry policy around
`EC2.exceptions.ClientErro` — a nonexistent attribute, so the lookup
raises `AttributeError` and the rest of the method (ingress rules,
tags, registry entry) is unreachable. -/
def sgCreate (st : RemoteState) (reg : Registry) (env : AwsEnv)
    (nm desc : String) (v : VpcInstance) (calls : List String) : SgOut :=
  let gid := env.newSgId
  let st1 := { st with securityGroups :=
    st.securityGroups ++ [⟨gid, nm, v.vpcId, desc⟩] }
  let calls1 := calls ++ ["create_security_group"]
  match ec2ExceptionsAttr "ClientErro" with
  | .error e => ⟨.error e, st1, reg, calls1⟩
  | .ok _ =>
    ⟨.ok ⟨nm, false, some v, v.vpcId, desc, gid, false⟩,
      st1, addResource reg "security-groups" gid nm,
      calls1 ++ ["authorize_security_group_ingress", "create_tags"]⟩

/-- Default security-group description (ec2.py line 495). -/
def defaultSgDescription : String :=
  "This security group was automatically generated by cloudknot."

/-- `SecurityGroup.__init__` (ec2.py lines 410-496): require an id or a
name plus VPC, reject an id together with any other input, resolve;
adoption fails with the conflict error when a name or VPC was supplied,
otherwise registers and adopts with `vpc = None`; a missing id is an
error; fresh creation stores the VPC reference and its id and calls
`_create`. -/
def sgInit (st : RemoteState) (reg : Registry) (env : AwsEnv)
    (sgId? name? : Option String) (vpc? : Option VpcInstance)
    (description? : Option String) : SgOut :=
  if !(sgId?.isSome || (name?.isSome && vpc?.isSome)) then
    ⟨.error (.valueError
      "You must specify either a security group id for an existing security group or a name and VPC for a new security group."),
      st, reg, []⟩
  else if sgId?.isSome &&
      (name?.isSome || vpc?.isSome || description?.isSome) then
    ⟨.error (.valueError
      "You must specify either a security group id for an existing security group or input parameters for a new security group. You cannot do both."),
      st, reg, []⟩
  else
    match sgExistsAlready st sgId? name? (vpc?.map (·.vpcId)) with
    | (.found a, calls1) =>
      if name?.isSome || vpc?.isSome then
        ⟨.error (.resourceExists a.securityGroupId), st, reg, calls1⟩
      else
        ⟨.ok ⟨a.name, true, none, a.vpcId, a.description, a.securityGroupId,
            false⟩,
          st, addResource reg "security-groups" a.securityGroupId a.name,
          calls1⟩
    | (.notFound, calls1) =>
      match sgId? with
      | some gid => ⟨.error (.resourceDoesNotExist gid), st, reg, calls1⟩
      | none =>
        match name?, vpc? with
        | some nm, some v =>
          sgCreate st reg env nm (description?.getD defaultSgDescription) v
            calls1
        | _, _ =>
          ⟨.error (.valueError "unreachable: guarded by the input checks"),
            st, reg, calls1⟩

/-- `SecurityGroup.clobber` (ec2.py lines 646-711): terminate EC2
instances in the VPC that use the group, wait for compute environments
referencing the group, delete the group and drop the registry entry.
The compute-environment wait (`wait_for_compute_environment`,
base_classes.py, not under src/) is modelled from the spec: referencing
compute environments finish deleting before the method proceeds.  The
method neither checks nor sets a clobbered flag, so the instance is
returned unchanged. -/
def sgClobber (st : RemoteState) (reg : Registry) (s : SgInstance) :
    ClobberOut SgInstance :=
  let deps := (st.instances.filter (fun i =>
    i.vpcId == s.vpcId && i.securityGroups.contains s.securityGroupId)).map
    (·.instanceId)
  let liveInstances :=
    st.instances.filter (fun i => !deps.contains i.instanceId)
  let st1 := if deps.isEmpty then st else { st with instances := liveInstances }
  let callsTerm := if deps.isEmpty then ["describe_instances"]
    else ["describe_instances", "terminate_instances"]
  let ces := st1.computeEnvs.filter
    (fun c => c.securityGroupIds.contains s.securityGroupId)
  let remainingCes := st1.computeEnvs.filter
    (fun c => !c.securityGroupIds.contains s.securityGroupId)
  let st2 := { st1 with computeEnvs := remainingCes }
  let callsCe := ["describe_compute_environments"] ++
    ces.map (fun _ => "wait_for_compute_environment")
  let remainingSgs :=
    st2.securityGroups.filter (fun g => !(g.groupId == s.securityGroupId))
  let st3 := { st2 with securityGroups := remainingSgs }
  ⟨.ok (), st3, removeResource reg "security-groups" s.securityGroupId, s,
    callsTerm ++ callsCe ++ ["delete_security_group"]⟩

/-- Canonical role attributes gathered by `IamRole._exists_already`.
`service` is the `Principal.Service` of the assume-role policy
document's first statement. -/
structure RoleAttrs where
  description : String
  service : String
  policies : List String
  arn : String
deriving Repr, DecidableEq

/-- `IamRole._exists_already` (iam.py lines 188-246): `get_role` (with a
short retry on the not-yet-visible `NoSuchEntityException`; exhaustion
reraises as not-found) followed by `list_attached_role_policies`. -/
def roleExistsAlready (st : RemoteState) (name : String) :
    Option RoleAttrs × List String :=
  match st.roles.find? (fun r => r.roleName == name) with
  | some r =>
    (some ⟨r.description, r.assumeRoleService, r.attachedPolicies, r.arn⟩,
      ["get_role", "list_attached_role_policies"])
  | none => (none, ["get_role"])

/-- In-memory `IamRole` instance. -/
structure RoleInstance where
  name : String
  preExisting : Bool
  description : String
  service : String
  policies : List String
  arn : String
  sectionName : String
  clobbered : Bool
deriving Repr, DecidableEq

/-- Output of an `IamRole` lifecycle operation. -/
structure RoleOut where
  result : Except Err RoleInstance
  remote : RemoteState
  registry : Registry
  calls : List String
deriving Repr, DecidableEq

/-- The allow-list of trust-policy principal services (iam.py line
152). -/
def allowedServices : List String :=
  ["batch", "ec2", "ecs-tasks", "lambda", "spotfleet"]

/-- All remote policy names, gathered page by page: the paginated
`list_policies` loop of iam.py lines 124-135. -/
def gatherPolicyNames : List (List RPolicy) → List String
  | [] => []
  | p :: rest => p.map (·.policyName) ++ gatherPolicyNames rest

/-- Python set proper-subset test `xs < ys` on the underlying sets of
two lists: every element of `xs` is in `ys` and some element of `ys` is
not in `xs` (iam.py line 138 uses the strict comparison). -/
def properSubset (xs ys : List String) : Bool :=
  xs.all (fun p => ys.contains p) && ys.any (fun q => !xs.contains q)

/-- `arn:` identifier minted by the remote provider for a created
role. -/
def mintRoleArn (name : String) : String :=
  "arn:aws:iam::123456789012:role/" ++ name

/-- Find a policy's arn in the paginated catalog: the `list_policies` /
`Marker` loop of iam.py lines 267-287 (none when the catalog is
exhausted without a hit, in which case the source's loop dies on the
missing `Marker` key). -/
def findPolicyArn (st : RemoteState) (p : String) : Option String :=
  (st.policyPages.flatten.find? (fun q => q.policyName == p)).map (·.arn)

/-- `IamRole._create` (iam.py lines 248-343): create the role, attach
each validated policy (looking its arn up in the paginated catalog),
optionally create an instance profile — idempotent against the
already-exists race — and register the role under the `roles`
section. -/
def roleCreate (st : RemoteState) (reg : Registry) (name desc fullSvc : String)
    (policies : List String) (addIp : Bool) (calls : List String) : RoleOut :=
  let arn := mintRoleArn name
  let st1 := { st with roles :=
    st.roles ++ [⟨name, arn, desc, fullSvc, policies⟩] }
  let calls1 := calls ++ ["create_role"] ++
    policies.flatMap (fun _ => ["list_policies", "attach_role_policy"])
  let profilePair : List (String × String) := [(name, name)]
  let st2 := if addIp then
      { st1 with instanceProfiles := st1.instanceProfiles ++ profilePair }
    else st1
  let calls2 := if addIp then
      calls1 ++ ["create_instance_profile", "wait_instance_profile_exists",
        "add_role_to_instance_profile"]
    else calls1
  ⟨.ok ⟨name, false, desc, fullSvc, policies, arn, "roles", false⟩,
    st2, addResource reg "roles" name arn, calls2⟩

/-- `IamRole.__init__` (iam.py lines 22-150): resolve by name; adoption
conflicts when any creation parameter was supplied; a missing role with
no creation parameters is an error; otherwise default the description
and service, check the service allow-list, dedupe the requested
policies, gather the remote policy catalog (paginated) and require the
requested names to be a strict subset of it, then create.  The
requested policies arrive as a list of strings, so the
policies-must-be-strings and flag-must-be-boolean checks of lines
111-122 and 147-148 have no counterpart here. -/
def roleInit (st : RemoteState) (reg : Registry) (name : String)
    (description? service? : Option String) (policies : List String)
    (addInstanceProfile : Bool) : RoleOut :=
  match roleExistsAlready st name with
  | (some a, calls1) =>
    if description?.isSome || !policies.isEmpty || addInstanceProfile ||
        service?.isSome then
      ⟨.error (.resourceExists name), st, reg, calls1⟩
    else
      ⟨.ok ⟨name, true, a.description, a.service, a.policies, a.arn,
          "roles", false⟩,
        st, addResource reg "roles" name a.arn, calls1⟩
  | (none, calls1) =>
    if !(description?.isSome || service?.isSome || !policies.isEmpty) then
      ⟨.error (.resourceDoesNotExist name), st, reg, calls1⟩
    else
      let desc := description?.getD "This role was generated by cloudknot"
      let svc := service?.getD "ecs-tasks"
      if allowedServices.contains svc then
        let fullSvc := svc ++ ".amazonaws.com"
        let inputPolicies := policies.dedup
        let awsPolicies := gatherPolicyNames st.policyPages
        let calls2 := calls1 ++
          st.policyPages.map (fun _ => "list_policies")
        if !properSubset inputPolicies awsPolicies then
          let bad := inputPolicies.filter (fun p => !awsPolicies.contains p)
          ⟨.error (.valueError ("Could not find the policies " ++
              String.intercalate ", " bad ++ " on AWS.")),
            st, reg, calls2⟩
        else
          roleCreate st reg name desc fullSvc inputPolicies
            addInstanceProfile calls2
      else
        ⟨.error (.valueError ("service must be in " ++
            String.intercalate ", " allowedServices)),
          st, reg, calls1⟩

/-- `IamRole.instance_profile_arn` (iam.py lines 345-372): fail with the
resource-clobbered error on a clobbered instance, otherwise list the
instance profiles attached to the role and return the first arn, or
none.  (`check_profile`, base_classes.py, not under src/, performs a
local profile consistency check and is modelled as a no-op.) -/
def instanceProfileArn (st : RemoteState) (r : RoleInstance) :
    Except Err (Option String) :=
  if r.clobbered then .error (.resourceClobbered r.arn)
  else
    match st.instanceProfiles.find? (fun p => p.2 == r.name) with
    | some p =>
      .ok (some ("arn:aws:iam::123456789012:instance-profile/" ++ p.1))
    | none => .ok none

/-- The policy-detachment loop of `IamRole.clobber` (iam.py lines
451-477): for each attached policy find its arn in the paginated
catalog and detach it; a policy absent from the catalog makes the
pagination loop die on the missing `Marker` key. -/
def detachPolicies (st : RemoteState) : List String → Except Err (List String)
  | [] => .ok []
  | p :: rest =>
    match findPolicyArn st p with
    | none => .error (.keyError "Marker")
    | some _ =>
      match detachPolicies st rest with
      | .error e => .error e
      | .ok cs => .ok (["list_policies", "detach_role_policy"] ++ cs)

/-- `IamRole.clobber` (iam.py lines 374-489): a no-op when already
clobbered; for a batch service role refuse when dependent compute
environments are not already deleting, otherwise poll (retrying on a
still-DELETING status) until they are gone; remove any instance
profile; detach every attached policy; delete the role; drop the
registry entry; finally mark the instance clobbered. -/
def roleClobber (st : RemoteState) (reg : Registry) (r : RoleInstance) :
    ClobberOut RoleInstance :=
  if r.clobbered then ⟨.ok (), st, reg, r, []⟩
  else
    let dependents := st.computeEnvs.filter (fun c => c.serviceRole == r.arn)
    let conflicting := dependents.filter
      (fun c => !(c.status == "DELETING" || c.status == "DELETED"))
    let isBatch := r.service == "batch.amazonaws.com"
    if isBatch && !conflicting.isEmpty then
      ⟨.error (.cannotDeleteResource (conflicting.map (·.arn))), st, reg, r,
        ["describe_compute_environments"]⟩
    else
      let remainingCes := st.computeEnvs.filter
        (fun c => !(c.serviceRole == r.arn))
      let st1 := if isBatch then { st with computeEnvs := remainingCes }
        else st
      let callsCe := if isBatch then
          ["describe_compute_environments"] ++
            dependents.map (fun _ => "describe_compute_environments")
        else []
      match instanceProfileArn st1 r with
      | .error e => ⟨.error e, st1, reg, r, callsCe⟩
      | .ok ip? =>
        let remainingProfiles :=
          st1.instanceProfiles.filter (fun p => !(p.2 == r.name))
        let st2 := if ip?.isSome then
            { st1 with instanceProfiles := remainingProfiles }
          else st1
        let callsIp := if ip?.isSome then
            ["list_instance_profiles_for_role",
              "remove_role_from_instance_profile", "delete_instance_profile"]
          else []
        match detachPolicies st2 r.policies with
        | .error e => ⟨.error e, st2, reg, r, callsCe ++ callsIp⟩
        | .ok callsDetach =>
          let remainingRoles :=
            st2.roles.filter (fun q => !(q.roleName == r.name))
          let st3 := { st2 with roles := remainingRoles }
          ⟨.ok (), st3, removeResource reg r.sectionName r.name,
            { r with clobbered := true },
            callsCe ++ callsIp ++ callsDetach ++ ["delete_role"]⟩

/-- Sample remote VPC used by the concrete scenarios. -/
def sampleVpc : RVpc :=
  ⟨"vpc-123", ⟨167772160, 16⟩, "default",
    [⟨"Name", "mynet"⟩, ⟨"owner", "cloudknot"⟩]⟩

/-- Sample two-page remote policy catalog. -/
def samplePolicyPages : List (List RPolicy) :=
  [[⟨"AmazonS3ReadOnlyAccess", "arn:aws:iam::aws:policy/AmazonS3ReadOnlyAccess"⟩],
   [⟨"AWSLambdaRole", "arn:aws:iam::aws:policy/service-role/AWSLambdaRole"⟩]]

/-- Sample remote role. -/
def sampleRole : RRole :=
  ⟨"r1", "arn:aws:iam::123456789012:role/r1", "sample role",
    "ec2.amazonaws.com", ["AmazonS3ReadOnlyAccess"]⟩

/-- Sample remote security group, attached to the sample VPC. -/
def sampleSg : RSecurityGroup := ⟨"sg-42", "sg1", "vpc-123", "sample group"⟩

/-- Sample remote state: one VPC with two subnets and one attached
security group, one role, a two-page policy catalog, no instances and
no compute environments. -/
def sampleState : RemoteState :=
  ⟨[sampleVpc], [⟨"subnet-1", "vpc-123"⟩, ⟨"subnet-2", "vpc-123"⟩],
    [sampleSg], [sampleRole], samplePolicyPages, [], [], []⟩

/-- Sample state without the security group (the VPC is deletable). -/
def sampleStateNoSg : RemoteState := { sampleState with securityGroups := [] }

/-- The empty local registry. -/
def emptyReg : Registry := ⟨[]⟩

/-- Sample minted identifiers and region zones. -/
def sampleEnv : AwsEnv :=
  ⟨"vpc-new", "sg-new", ["us-east-1a", "us-east-1b", "us-east-1c"]⟩

/-- Canonical attributes of the sample VPC as the resolver reports
them. -/
def sampleVpcAttrs : VpcAttrs :=
  ⟨"mynet", ⟨167772160, 16⟩, "default", "vpc-123", ["subnet-1", "subnet-2"]⟩

/-- Canonical attributes of the sample security group as the resolver
reports them. -/
def sampleSgAttrs : SgAttrs := ⟨"sg1", "vpc-123", "sample group", "sg-42"⟩

/-- Canonical attributes of the sample role as the resolver reports
them. -/
def sampleRoleAttrs : RoleAttrs :=
  ⟨"sample role", "ec2.amazonaws.com", ["AmazonS3ReadOnlyAccess"],
    "arn:aws:iam::123456789012:role/r1"⟩

/-- The in-memory instance obtained by adopting the sample VPC. -/
def sampleVpcInstance : VpcInstance :=
  ⟨"mynet", true, ⟨167772160, 16⟩, "default", "vpc-123",
    ["subnet-1", "subnet-2"], false⟩

/-- The in-memory instance obtained by adopting the sample security
group by id. -/
def sampleSgInstance : SgInstance :=
  ⟨"sg1", true, none, "vpc-123", "sample group", "sg-42", false⟩

/-- The in-memory instance obtained by adopting the sample role. -/
def sampleRoleInstance : RoleInstance :=
  ⟨"r1", true, "sample role", "ec2.amazonaws.com", ["AmazonS3ReadOnlyAccess"],
    "arn:aws:iam::123456789012:role/r1", "roles", false⟩

/-- The sample role instance after a successful destroy. -/
def sampleRoleInstanceClobbered : RoleInstance :=
  { sampleRoleInstance with clobbered := true }

/-- A security group living in a different VPC. -/
def sampleSgOther : RSecurityGroup := ⟨"sg-77", "sg9", "vpc-999", "other group"⟩

/-- Canonical attributes of `sampleSgOther` as the resolver reports
them. -/
def sampleSgOtherAttrs : SgAttrs := ⟨"sg9", "vpc-999", "other group", "sg-77"⟩

/-- Remote state whose VPC has no attached security group while a
security group exists elsewhere: every resource kind can be adopted and
then destroyed. -/
def sampleStateAdoptable : RemoteState :=
  ⟨[sampleVpc], [⟨"subnet-1", "vpc-123"⟩, ⟨"subnet-2", "vpc-123"⟩],
    [sampleSgOther], [sampleRole], samplePolicyPages, [], [], []⟩

/-- Membership in the truncated subnet list names the block's index. -/
lemma mem_subnetBlocks_take {c : Cidr} {d z : Nat} {sb : Cidr}
    (h : sb ∈ (c.subnetBlocks d).take z) :
    ∃ i < 2 ^ d, sb = ⟨c.addr + i * 2 ^ (32 - c.plen - d), c.plen + d⟩ := by
  have h1 : sb ∈ c.subnetBlocks d := List.take_subset _ _ h
  unfold Cidr.subnetBlocks at h1
  rcases List.mem_map.mp h1 with ⟨i, hi, hEq⟩
  exact ⟨i, List.mem_range.mp hi, hEq.symm⟩

/-- Each subnet block at `d` extra prefix bits is contained in the
parent block. -/
lemma subnetBlock_nested {c : Cidr} {d i x : Nat} (hp : c.plen ≤ 32)
    (hd : d ≤ 32 - c.plen) (hi : i < 2 ^ d)
    (hx : (⟨c.addr + i * 2 ^ (32 - c.plen - d), c.plen + d⟩ : Cidr).containsAddr x) :
    c.containsAddr x := by
  simp only [Cidr.containsAddr, Cidr.size] at hx ⊢
  obtain ⟨hlo, hhi⟩ := hx
  have hstep : (2 : Nat) ^ (32 - (c.plen + d)) = 2 ^ (32 - c.plen - d) := by
    congr 1
    omega
  rw [hstep] at hhi
  have hmul : (i + 1) * 2 ^ (32 - c.plen - d) ≤ 2 ^ d * 2 ^ (32 - c.plen - d) :=
    Nat.mul_le_mul_right _ (by omega)
  have hpow : 2 ^ d * 2 ^ (32 - c.plen - d) = 2 ^ (32 - c.plen) := by
    rw [← pow_add]
    congr 1
    omega
  have hsucc : (i + 1) * 2 ^ (32 - c.plen - d)
      = i * 2 ^ (32 - c.plen - d) + 2 ^ (32 - c.plen - d) := by ring
  omega

/-- Two subnet blocks at distinct indices are address-disjoint. -/
lemma subnetBlock_disjoint {c : Cidr} {d i j x : Nat} (hij : i ≠ j)
    (hxi : (⟨c.addr + i * 2 ^ (32 - c.plen - d), c.plen + d⟩ : Cidr).containsAddr x)
    (hxj : (⟨c.addr + j * 2 ^ (32 - c.plen - d), c.plen + d⟩ : Cidr).containsAddr x) :
    False := by
  simp only [Cidr.containsAddr, Cidr.size] at hxi hxj
  obtain ⟨hloi, hhii⟩ := hxi
  obtain ⟨hloj, hhij⟩ := hxj
  have hstep : (2 : Nat) ^ (32 - (c.plen + d)) = 2 ^ (32 - c.plen - d) := by
    congr 1
    omega
  rw [hstep] at hhii hhij
  have hsucci : (i + 1) * 2 ^ (32 - c.plen - d)
      = i * 2 ^ (32 - c.plen - d) + 2 ^ (32 - c.plen - d) := by ring
  have hsuccj : (j + 1) * 2 ^ (32 - c.plen - d)
      = j * 2 ^ (32 - c.plen - d) + 2 ^ (32 - c.plen - d) := by ring
  rcases Nat.lt_or_ge i j with hlt | hge
  · have hmul : (i + 1) * 2 ^ (32 - c.plen - d) ≤ j * 2 ^ (32 - c.plen - d) :=
      Nat.mul_le_mul_right _ (by omega)
    omega
  · have hlt2 : j < i := by omega
    have hmul : (j + 1) * 2 ^ (32 - c.plen - d) ≤ i * 2 ^ (32 - c.plen - d) :=
      Nat.mul_le_mul_right _ (by omega)
    omega

/-- Claim C2: for a fresh network in a region with `z` availability
zones (`1 ≤ z`), subnet carving yields exactly the first `z` blocks of
the partition of the address block into subnets with `ceil(log2 z)`
extra prefix bits; that list has length `z`, each block is nested in
the parent block, and distinct blocks are pairwise non-overlapping;
and carving fails when the address block has fewer addresses than
zones. -/
theorem vpc_subnet_partition (c : Cidr) (z : Nat) (hz : 1 ≤ z)
    (hp : c.plen ≤ 32) :
    (z ≤ c.size →
      vpcAddSubnets c z = .ok ((c.subnetBlocks (Nat.clog 2 z)).take z) ∧
      ((c.subnetBlocks (Nat.clog 2 z)).take z).length = z ∧
      (∀ sb ∈ (c.subnetBlocks (Nat.clog 2 z)).take z,
        ∀ x, sb.containsAddr x → c.containsAddr x) ∧
      (∀ s1 ∈ (c.subnetBlocks (Nat.clog 2 z)).take z,
        ∀ s2 ∈ (c.subnetBlocks (Nat.clog 2 z)).take z,
        s1 ≠ s2 → ∀ x, ¬(s1.containsAddr x ∧ s2.containsAddr x))) ∧
    (c.size < z → vpcAddSubnets c z = .error (.valueError
      "IPv4 CIDR block does not have enough addresses for each availability zone")) := by
  constructor
  · intro h
    have hz0 : z ≠ 0 := by omega
    have hsize : c.size = 2 ^ (32 - c.plen) := rfl
    have hzpow : z ≤ 2 ^ (32 - c.plen) := hsize ▸ h
    have hd : Nat.clog 2 z ≤ 32 - c.plen :=
      (Nat.le_pow_iff_clog_le (by norm_num)).mp hzpow
    have hz2d : z ≤ 2 ^ Nat.clog 2 z := Nat.le_pow_clog (by norm_num) z
    have hng : ¬ c.size < z := by omega
    have hng2 : ¬ c.plen + Nat.clog 2 z > 32 := by omega
    have hok : vpcAddSubnets c z
        = .ok ((c.subnetBlocks (Nat.clog 2 z)).take z) := by
      simp only [vpcAddSubnets, ceilLog2, cidrSubnets, if_neg hng,
        if_neg hz0, if_neg hng2]
    refine ⟨hok, ?_, ?_, ?_⟩
    · have hlen : (c.subnetBlocks (Nat.clog 2 z)).length
          = 2 ^ Nat.clog 2 z := by
        unfold Cidr.subnetBlocks
        simp
      rw [List.length_take, hlen]
      omega
    · intro sb hsb x hx
      rcases mem_subnetBlocks_take hsb with ⟨i, hi, hEq⟩
      subst hEq
      exact subnetBlock_nested hp hd hi hx
    · intro s1 hs1 s2 hs2 hne x hx
      rcases mem_subnetBlocks_take hs1 with ⟨i, hi, hEq1⟩
      rcases mem_subnetBlocks_take hs2 with ⟨j, hj, hEq2⟩
      subst hEq1
      subst hEq2
      have hij : i ≠ j := by
        intro hEq
        exact hne (by rw [hEq])
      exact subnetBlock_disjoint hij hx.1 hx.2
  · intro h
    unfold vpcAddSubnets
    rw [if_pos (by omega)]

/-- When the resolver finds a VPC by name, `Vpc.__init__` with only the
name adopts it: the attributes come from the resolver and the VPC is
registered. -/
lemma vpcInit_adopt_by_name (st st' : RemoteState) (reg : Registry)
    (env : AwsEnv) (n : String) (a : VpcAttrs) (cs : List String)
    (hv : vpcExistsAlready st none (some n) = (.found a, st', cs)) :
    vpcInit st reg env none (some n) none none =
      ⟨.ok ⟨a.name, true, a.ipv4Cidr, a.instanceTenancy, a.vpcId,
          a.subnetIds, false⟩,
        st', addResource reg "vpc" a.vpcId a.name, cs⟩ := by
  simp [vpcInit, hv]

/-- When the resolver finds a VPC by id, `Vpc.__init__` with only the id
adopts it. -/
lemma vpcInit_adopt_by_id (st st' : RemoteState) (reg : Registry)
    (env : AwsEnv) (vid : String) (a : VpcAttrs) (cs : List String)
    (hv : vpcExistsAlready st (some vid) none = (.found a, st', cs)) :
    vpcInit st reg env (some vid) none none none =
      ⟨.ok ⟨a.name, true, a.ipv4Cidr, a.instanceTenancy, a.vpcId,
          a.subnetIds, false⟩,
        st', addResource reg "vpc" a.vpcId a.name, cs⟩ := by
  simp [vpcInit, hv]

/-- When the resolver finds a security group by id,
`SecurityGroup.__init__` with only the id adopts it with a `None` VPC
reference. -/
lemma sgInit_adopt_by_id (st : RemoteState) (reg : Registry) (env : AwsEnv)
    (gid : String) (b : SgAttrs) (cs : List String)
    (hs : sgExistsAlready st (some gid) none none = (.found b, cs)) :
    sgInit st reg env (some gid) none none none =
      ⟨.ok ⟨b.name, true, none, b.vpcId, b.description, b.securityGroupId,
          false⟩,
        st, addResource reg "security-groups" b.securityGroupId b.name, cs⟩ := by
  simp [sgInit, hs]

/-- When the resolver finds a role by name, `IamRole.__init__` with only
the name adopts it. -/
lemma roleInit_adopt_by_name (st : RemoteState) (reg : Registry)
    (rn : String) (rA : RoleAttrs) (cs : List String)
    (hr : roleExistsAlready st rn = (some rA, cs)) :
    roleInit st reg rn none none [] false =
      ⟨.ok ⟨rn, true, rA.description, rA.service, rA.policies, rA.arn,
          "roles", false⟩,
        st, addResource reg "roles" rn rA.arn, cs⟩ := by
  simp [roleInit, hr]

/-- Claim C1: for each resource kind, constructing a controller for an
already-registered name twice without destroying, supplying only
identification parameters both times (the name for Network and Role,
the group id for SecurityGroup), succeeds both times and yields two
instances with identical canonical attributes. -/
theorem adopt_twice_idempotent (st : RemoteState) (reg : Registry)
    (env : AwsEnv) (n gid rn : String) (a : VpcAttrs) (b : SgAttrs)
    (rA : RoleAttrs) (cs1 cs2 cs3 : List String)
    (hv : vpcExistsAlready st none (some n) = (.found a, st, cs1))
    (hs : sgExistsAlready st (some gid) none none = (.found b, cs2))
    (hr : roleExistsAlready st rn = (some rA, cs3)) :
    (∃ i1 i2 : VpcInstance,
      (vpcInit st reg env none (some n) none none).result = .ok i1 ∧
      (vpcInit (vpcInit st reg env none (some n) none none).remote
        (vpcInit st reg env none (some n) none none).registry
        env none (some n) none none).result = .ok i2 ∧
      i1.name = i2.name ∧ i1.vpcId = i2.vpcId ∧ i1.ipv4Cidr = i2.ipv4Cidr ∧
      i1.instanceTenancy = i2.instanceTenancy ∧
      i1.subnetIds = i2.subnetIds) ∧
    (∃ j1 j2 : SgInstance,
      (sgInit st reg env (some gid) none none none).result = .ok j1 ∧
      (sgInit (sgInit st reg env (some gid) none none none).remote
        (sgInit st reg env (some gid) none none none).registry
        env (some gid) none none none).result = .ok j2 ∧
      j1.name = j2.name ∧ j1.securityGroupId = j2.securityGroupId ∧
      j1.vpcId = j2.vpcId ∧ j1.description = j2.description) ∧
    (∃ k1 k2 : RoleInstance,
      (roleInit st reg rn none none [] false).result = .ok k1 ∧
      (roleInit (roleInit st reg rn none none [] false).remote
        (roleInit st reg rn none none [] false).registry
        rn none none [] false).result = .ok k2 ∧
      k1.name = k2.name ∧ k1.arn = k2.arn ∧
      k1.description = k2.description ∧ k1.service = k2.service ∧
      k1.policies = k2.policies) := by
  refine ⟨?_, ?_, ?_⟩
  · rw [vpcInit_adopt_by_name st st reg env n a cs1 hv]
    rw [vpcInit_adopt_by_name st st (addResource reg "vpc" a.vpcId a.name)
      env n a cs1 hv]
    exact ⟨_, _, rfl, rfl, rfl, rfl, rfl, rfl, rfl⟩
  · rw [sgInit_adopt_by_id st reg env gid b cs2 hs]
    rw [sgInit_adopt_by_id st
      (addResource reg "security-groups" b.securityGroupId b.name)
      env gid b cs2 hs]
    exact ⟨_, _, rfl, rfl, rfl, rfl, rfl, rfl⟩
  · rw [roleInit_adopt_by_name st reg rn rA cs3 hr]
    rw [roleInit_adopt_by_name st (addResource reg "roles" rn rA.arn)
      rn rA cs3 hr]
    exact ⟨_, _, rfl, rfl, rfl, rfl, rfl, rfl, rfl⟩

/-- Witness for C1 at the sample remote state. -/
theorem adopt_twice_idempotent_witness :
    vpcExistsAlready sampleState none (some "mynet")
      = (.found sampleVpcAttrs, sampleState,
          ["describe_tags", "describe_vpcs", "describe_subnets"]) ∧
    sgExistsAlready sampleState (some "sg-42") none none
      = (.found sampleSgAttrs, ["describe_security_groups"]) ∧
    roleExistsAlready sampleState "r1"
      = (some sampleRoleAttrs, ["get_role", "list_attached_role_policies"]) ∧
    ((∃ i1 i2 : VpcInstance,
      (vpcInit sampleState emptyReg sampleEnv none (some "mynet")
        none none).result = .ok i1 ∧
      (vpcInit (vpcInit sampleState emptyReg sampleEnv none (some "mynet")
          none none).remote
        (vpcInit sampleState emptyReg sampleEnv none (some "mynet")
          none none).registry
        sampleEnv none (some "mynet") none none).result = .ok i2 ∧
      i1.name = i2.name ∧ i1.vpcId = i2.vpcId ∧ i1.ipv4Cidr = i2.ipv4Cidr ∧
      i1.instanceTenancy = i2.instanceTenancy ∧
      i1.subnetIds = i2.subnetIds) ∧
    (∃ j1 j2 : SgInstance,
      (sgInit sampleState emptyReg sampleEnv (some "sg-42") none none
        none).result = .ok j1 ∧
      (sgInit (sgInit sampleState emptyReg sampleEnv (some "sg-42") none none
          none).remote
        (sgInit sampleState emptyReg sampleEnv (some "sg-42") none none
          none).registry
        sampleEnv (some "sg-42") none none none).result = .ok j2 ∧
      j1.name = j2.name ∧ j1.securityGroupId = j2.securityGroupId ∧
      j1.vpcId = j2.vpcId ∧ j1.description = j2.description) ∧
    (∃ k1 k2 : RoleInstance,
      (roleInit sampleState emptyReg "r1" none none [] false).result
        = .ok k1 ∧
      (roleInit (roleInit sampleState emptyReg "r1" none none []
          false).remote
        (roleInit sampleState emptyReg "r1" none none [] false).registry
        "r1" none none [] false).result = .ok k2 ∧
      k1.name = k2.name ∧ k1.arn = k2.arn ∧
      k1.description = k2.description ∧ k1.service = k2.service ∧
      k1.policies = k2.policies)) :=
  ⟨by decide, by decide, by decide,
    adopt_twice_idempotent sampleState emptyReg sampleEnv "mynet" "sg-42" "r1"
      sampleVpcAttrs sampleSgAttrs sampleRoleAttrs
      ["describe_tags", "describe_vpcs", "describe_subnets"]
      ["describe_security_groups"] ["get_role", "list_attached_role_policies"]
      (by decide) (by decide) (by decide)⟩

/-- Witness for C2 at the spec's 8-availability-zone scenario on the
default block `10.0.0.0/16`. -/
theorem vpc_subnet_partition_witness :
    1 ≤ 8 ∧ (⟨167772160, 16⟩ : Cidr).plen ≤ 32 ∧
    ((8 ≤ (⟨167772160, 16⟩ : Cidr).size →
      vpcAddSubnets ⟨167772160, 16⟩ 8
        = .ok (((⟨167772160, 16⟩ : Cidr).subnetBlocks (Nat.clog 2 8)).take 8) ∧
      (((⟨167772160, 16⟩ : Cidr).subnetBlocks (Nat.clog 2 8)).take 8).length = 8 ∧
      (∀ sb ∈ ((⟨167772160, 16⟩ : Cidr).subnetBlocks (Nat.clog 2 8)).take 8,
        ∀ x, sb.containsAddr x → (⟨167772160, 16⟩ : Cidr).containsAddr x) ∧
      (∀ s1 ∈ ((⟨167772160, 16⟩ : Cidr).subnetBlocks (Nat.clog 2 8)).take 8,
        ∀ s2 ∈ ((⟨167772160, 16⟩ : Cidr).subnetBlocks (Nat.clog 2 8)).take 8,
        s1 ≠ s2 → ∀ x, ¬(s1.containsAddr x ∧ s2.containsAddr x))) ∧
    ((⟨167772160, 16⟩ : Cidr).size < 8 → vpcAddSubnets ⟨167772160, 16⟩ 8
      = .error (.valueError
        "IPv4 CIDR block does not have enough addresses for each availability zone"))) :=
  ⟨by norm_num, by norm_num,
    vpc_subnet_partition ⟨167772160, 16⟩ 8 (by norm_num) (by norm_num)⟩





/-- Filtering with a predicate after keeping only its complement leaves
nothing. -/
lemma filter_not_then_filter {α : Type} (p : α → Bool) (l : List α) :
    (l.filter (fun a => !(p a))).filter p = [] := by
  induction l with
  | nil => rfl
  | cons x xs ih =>
    by_cases h : p x = true
    · simp [List.filter_cons, h, ih]
    · have hb : p x = false := by revert h; cases p x <;> simp
      simp [List.filter_cons, hb, ih]

/-- After `remove_resource`, the registry holds no entry for the removed
key. -/
lemma countEntries_removeResource (r : Registry) (sec key : String) :
    countEntries (removeResource r sec key) sec key = 0 := by
  unfold countEntries removeResource
  rw [filter_not_then_filter]
  rfl

/-- The policy-detachment loop reads only the policy catalog of the
remote state. -/
lemma detachPolicies_congr (st1 st2 : RemoteState)
    (h : st1.policyPages = st2.policyPages) (ps : List String) :
    detachPolicies st1 ps = detachPolicies st2 ps := by
  induction ps with
  | nil => rfl
  | cons p rest ih =>
    have hf : findPolicyArn st1 p = findPolicyArn st2 p := by
      unfold findPolicyArn
      rw [h]
    unfold detachPolicies
    rw [hf, ih]

/-- Specialization: updating only the compute environments does not
change the policy-detachment loop. -/
lemma detachPolicies_update_ces (st : RemoteState) (ces : List RComputeEnv)
    (ps : List String) :
    detachPolicies { st with computeEnvs := ces } ps = detachPolicies st ps :=
  detachPolicies_congr { st with computeEnvs := ces } st rfl ps

/-- A second `IamRole.clobber` on a clobbered role returns immediately:
no error, no state change, no remote calls. -/
lemma roleClobber_noop (st : RemoteState) (reg : Registry) (r : RoleInstance)
    (h : r.clobbered = true) :
    roleClobber st reg r = ⟨.ok (), st, reg, r, []⟩ := by
  unfold roleClobber
  rw [h]
  rfl

/-- Components of a successful `IamRole.clobber` on a non-clobbered
role: no conflicting compute environments, no instance profile, every
attached policy findable in the catalog.  The role is deleted, its
registry entry removed, and the returned instance is marked
clobbered. -/
lemma roleClobber_success (st : RemoteState) (reg : Registry)
    (r : RoleInstance) (csd : List String)
    (h1 : r.clobbered = false)
    (hces : (st.computeEnvs.filter (fun c => c.serviceRole == r.arn)).filter
      (fun c => !(c.status == "DELETING" || c.status == "DELETED")) = [])
    (hip : st.instanceProfiles.find? (fun p => p.2 == r.name) = none)
    (hdp : detachPolicies st r.policies = .ok csd) :
    (roleClobber st reg r).result = .ok () ∧
    (roleClobber st reg r).inst = { r with clobbered := true } ∧
    (roleClobber st reg r).registry = removeResource reg r.sectionName r.name := by
  by_cases hb : (r.service == "batch.amazonaws.com") = true
  · simp only [roleClobber, h1, Bool.false_eq_true, if_false, hces,
      List.isEmpty_nil, Bool.not_true, Bool.and_false, instanceProfileArn,
      hb, if_true, Option.isSome_none, detachPolicies_update_ces, hip, hdp]
    refine ⟨?_, ?_, ?_⟩ <;> trivial
  · have hb2 : (r.service == "batch.amazonaws.com") = false := by
      revert hb; cases r.service == "batch.amazonaws.com" <;> simp
    simp only [roleClobber, h1, Bool.false_eq_true, if_false, hces,
      List.isEmpty_nil, Bool.not_true, Bool.and_false, instanceProfileArn,
      hb2, Bool.false_and, Option.isSome_none, hip, hdp]
    refine ⟨?_, ?_, ?_⟩ <;> trivial

/-- Components of `SecurityGroup.clobber`: it always reports success,
returns the instance unchanged, removes the registry entry and deletes
the group remotely. -/
lemma sgClobber_components (st : RemoteState) (reg : Registry)
    (s : SgInstance) :
    (sgClobber st reg s).result = .ok () ∧
    (sgClobber st reg s).inst = s ∧
    (sgClobber st reg s).registry
      = removeResource reg "security-groups" s.securityGroupId ∧
    (sgClobber st reg s).remote.securityGroups
      = st.securityGroups.filter (fun g => !(g.groupId == s.securityGroupId)) := by
  refine ⟨rfl, rfl, rfl, ?_⟩
  unfold sgClobber
  dsimp only
  split <;> rfl

/-- `Vpc.clobber` returns the in-memory instance unchanged on every
path. -/
lemma vpcClobber_inst (st : RemoteState) (reg : Registry) (v : VpcInstance) :
    (vpcClobber st reg v).inst = v := by
  unfold vpcClobber
  dsimp only
  split <;> rfl

/-- Claim C3 (code bug): iam.py line 138 tests the requested policy set
with the strict comparison `<` while its own comment says "not a
subset".  When the requested policies are exactly the remote catalog —
every requested name exists remotely — validation still fails with a
`ValueError` naming an empty set of missing policies, and before any
`create_role` call. -/
theorem role_policy_validation_strict_subset_bug :
    (∀ p ∈ ["AmazonS3ReadOnlyAccess", "AWSLambdaRole"],
      p ∈ gatherPolicyNames sampleState.policyPages) ∧
    (roleInit sampleState emptyReg "r2" none (some "ec2")
      ["AmazonS3ReadOnlyAccess", "AWSLambdaRole"] false).result
      = .error (.valueError "Could not find the policies  on AWS.") ∧
    "create_role" ∉ (roleInit sampleState emptyReg "r2" none (some "ec2")
      ["AmazonS3ReadOnlyAccess", "AWSLambdaRole"] false).calls := by
  refine ⟨by decide, by decide, by decide⟩

/-- Claim C7 (code bug): the retry policy of `SecurityGroup._create`
names the nonexistent exceptions attribute `ClientErro` (ec2.py line
617), so instead of a loop that retries only on enumerated transient
conditions, every fresh security-group creation raises `AttributeError`
— after the `create_security_group` mutation has already been
issued. -/
theorem sg_create_retry_attribute_bug :
    (sgInit sampleState emptyReg sampleEnv none (some "sg-test")
      (some sampleVpcInstance) none).result
      = .error (.attributeError "ClientErro") ∧
    (sgInit sampleState emptyReg sampleEnv none (some "sg-test")
      (some sampleVpcInstance) none).calls
      = ["describe_security_groups", "create_security_group"] := by
  refine ⟨by decide, by decide⟩

/-- Claim C10 (code bug): a security group adopted by explicit id has
`vpc = None` and a populated `vpc_id`; but no freshly created security
group with a non-None `vpc` reference can be observed, because fresh
creation crashes on the `ClientErro` attribute lookup before
`__init__` returns. -/
theorem sg_adopted_vpc_reference :
    (∃ j : SgInstance,
      (sgInit sampleState emptyReg sampleEnv (some "sg-42") none none
        none).result = .ok j ∧
      j.preExisting = true ∧ j.vpc = none ∧ j.vpcId = "vpc-123") ∧
    (sgInit sampleState emptyReg sampleEnv none (some "sg-test2")
      (some sampleVpcInstance) none).result
      = .error (.attributeError "ClientErro") :=
  ⟨⟨⟨"sg1", true, none, "vpc-123", "sample group", "sg-42", false⟩,
    by decide, rfl, rfl, rfl⟩, by decide⟩

/-- Counterexample to claim C4: `Vpc.clobber` completes successfully yet
the instance is not in the CLOBBERED state (the flag is still false),
and a repeated destroy is not a no-op — it issues remote delete calls
again. -/
theorem clobber_flag_counterexample :
    (vpcClobber sampleStateNoSg emptyReg sampleVpcInstance).result
      = .ok () ∧
    (vpcClobber sampleStateNoSg emptyReg sampleVpcInstance).inst.clobbered
      = false ∧
    (vpcClobber (vpcClobber sampleStateNoSg emptyReg sampleVpcInstance).remote
      (vpcClobber sampleStateNoSg emptyReg sampleVpcInstance).registry
      (vpcClobber sampleStateNoSg emptyReg sampleVpcInstance).inst).calls
      ≠ [] := by
  refine ⟨by decide, by decide, by decide⟩

/-- Claim C4 as amended: the clobbered state machine holds for Role
only.  A successful `IamRole.clobber` marks the instance clobbered, a
second call is a no-op performing no remote calls, and
`instance_profile_arn` on a clobbered role fails with the
resource-clobbered error; `Vpc.clobber` and `SecurityGroup.clobber`
leave the clobbered flag unchanged (they neither set nor check it). -/
theorem clobber_state_machine_amended (st : RemoteState) (reg : Registry)
    (r r2 : RoleInstance) (v : VpcInstance) (s : SgInstance)
    (csd : List String)
    (h1 : r.clobbered = false)
    (hces : (st.computeEnvs.filter (fun c => c.serviceRole == r.arn)).filter
      (fun c => !(c.status == "DELETING" || c.status == "DELETED")) = [])
    (hip : st.instanceProfiles.find? (fun p => p.2 == r.name) = none)
    (hdp : detachPolicies st r.policies = .ok csd)
    (h3 : r2.clobbered = true) :
    (roleClobber st reg r).result = .ok () ∧
    (roleClobber st reg r).inst.clobbered = true ∧
    roleClobber st reg r2 = ⟨.ok (), st, reg, r2, []⟩ ∧
    instanceProfileArn st r2 = .error (.resourceClobbered r2.arn) ∧
    (vpcClobber st reg v).inst.clobbered = v.clobbered ∧
    (sgClobber st reg s).inst.clobbered = s.clobbered := by
  obtain ⟨hres, hinst, -⟩ := roleClobber_success st reg r csd h1 hces hip hdp
  refine ⟨hres, ?_, roleClobber_noop st reg r2 h3, ?_, ?_, ?_⟩
  · rw [hinst]
  · simp [instanceProfileArn, h3]
  · rw [vpcClobber_inst]
  · rw [(sgClobber_components st reg s).2.1]

/-- Witness for the amended C4 at the sample state. -/
theorem clobber_state_machine_amended_witness :
    sampleRoleInstance.clobbered = false ∧
    ((sampleStateNoSg.computeEnvs.filter
        (fun c => c.serviceRole == sampleRoleInstance.arn)).filter
      (fun c => !(c.status == "DELETING" || c.status == "DELETED"))) = [] ∧
    sampleStateNoSg.instanceProfiles.find?
      (fun p => p.2 == sampleRoleInstance.name) = none ∧
    detachPolicies sampleStateNoSg sampleRoleInstance.policies
      = .ok ["list_policies", "detach_role_policy"] ∧
    sampleRoleInstanceClobbered.clobbered = true ∧
    ((roleClobber sampleStateNoSg emptyReg sampleRoleInstance).result
        = .ok () ∧
      (roleClobber sampleStateNoSg emptyReg
        sampleRoleInstance).inst.clobbered = true ∧
      roleClobber sampleStateNoSg emptyReg sampleRoleInstanceClobbered
        = ⟨.ok (), sampleStateNoSg, emptyReg,
            sampleRoleInstanceClobbered, []⟩ ∧
      instanceProfileArn sampleStateNoSg sampleRoleInstanceClobbered
        = .error (.resourceClobbered sampleRoleInstanceClobbered.arn) ∧
      (vpcClobber sampleStateNoSg emptyReg
        sampleVpcInstance).inst.clobbered = sampleVpcInstance.clobbered ∧
      (sgClobber sampleStateNoSg emptyReg
        sampleSgInstance).inst.clobbered = sampleSgInstance.clobbered) :=
  ⟨by decide, by decide, by decide, by decide, by decide,
    clobber_state_machine_amended sampleStateNoSg emptyReg
      sampleRoleInstance sampleRoleInstanceClobbered sampleVpcInstance
      sampleSgInstance ["list_policies", "detach_role_policy"]
      (by decide) (by decide) (by decide) (by decide) (by decide)⟩

/-- Claim C5: destroying a network that still has an attached security
group fails with the not-deletable error whose dependent list contains
that group's identifier; destroying the security group first and then
the network succeeds. -/
theorem network_dependent_teardown (st : RemoteState) (reg reg2 : Registry)
    (v : VpcInstance) (s : SgInstance) (g : RSecurityGroup)
    (honly : st.securityGroups.filter (fun x => x.vpcId == v.vpcId) = [g])
    (hid : s.securityGroupId = g.groupId) :
    (∃ ids, (vpcClobber st reg v).result
        = .error (.cannotDeleteResource ids) ∧ g.groupId ∈ ids) ∧
    (sgClobber st reg2 s).result = .ok () ∧
    (vpcClobber (sgClobber st reg2 s).remote (sgClobber st reg2 s).registry
      v).result = .ok () := by
  obtain ⟨hres, -, -, hsgs⟩ := sgClobber_components st reg2 s
  have hg : g ∈ st.securityGroups.filter (fun x => x.vpcId == v.vpcId) := by
    rw [honly]
    exact List.mem_singleton.mpr rfl
  obtain ⟨hgmem, hgp⟩ := List.mem_filter.mp hg
  have hany : (st.securityGroups.any (fun x => x.vpcId == v.vpcId)) = true :=
    List.any_eq_true.mpr ⟨g, hgmem, hgp⟩
  refine ⟨⟨[g.groupId], ?_, List.mem_singleton.mpr rfl⟩, hres, ?_⟩
  · simp [vpcClobber, hany, honly]
  · have hany2 : ((sgClobber st reg2 s).remote.securityGroups.any
        (fun x => x.vpcId == v.vpcId)) = false := by
      rw [hsgs, List.any_eq_false]
      intro x hx
      obtain ⟨hxmem, hxne⟩ := List.mem_filter.mp hx
      intro hxv
      have hxg : x = g := by
        have hxin : x ∈ st.securityGroups.filter
            (fun y => y.vpcId == v.vpcId) :=
          List.mem_filter.mpr ⟨hxmem, hxv⟩
        rw [honly] at hxin
        exact List.mem_singleton.mp hxin
      subst hxg
      rw [hid] at hxne
      simp at hxne
    simp [vpcClobber, hany2]

/-- Witness for C5 at the sample state, whose security group `sg-42` is
attached to the sample VPC. -/
theorem network_dependent_teardown_witness :
    sampleState.securityGroups.filter
      (fun x => x.vpcId == sampleVpcInstance.vpcId) = [sampleSg] ∧
    sampleSgInstance.securityGroupId = sampleSg.groupId ∧
    ((∃ ids, (vpcClobber sampleState emptyReg sampleVpcInstance).result
        = .error (.cannotDeleteResource ids) ∧ sampleSg.groupId ∈ ids) ∧
    (sgClobber sampleState emptyReg sampleSgInstance).result = .ok () ∧
    (vpcClobber (sgClobber sampleState emptyReg sampleSgInstance).remote
      (sgClobber sampleState emptyReg sampleSgInstance).registry
      sampleVpcInstance).result = .ok ()) :=
  ⟨by decide, by decide,
    network_dependent_teardown sampleState emptyReg emptyReg
      sampleVpcInstance sampleSgInstance sampleSg (by decide) (by decide)⟩

/-- Counterexample to claim C6: supplying both a VPC id and a creation
parameter fails with a plain mutual-exclusion `ValueError`, not with
the resource-conflict (`ResourceExists`) error the claim names. -/
theorem conflict_error_kind_counterexample :
    (vpcInit sampleState emptyReg sampleEnv (some "vpc-123") (some "mynet")
      none none).result
      = .error (.valueError
        "You must specify either a VPC id for an existing VPC or input parameters for a new VPC. You cannot do both.") ∧
    ((vpcInit sampleState emptyReg sampleEnv (some "vpc-123") (some "mynet")
      none none).result.isConflictErr) = false := by
  refine ⟨by decide, by decide⟩

/-- Claim C6 as amended: for Network and SecurityGroup (the kinds whose
constructors accept an explicit remote identifier), supplying the id
together with any creation parameter always fails construction before
any remote call, with the mutual-exclusion validation `ValueError`
(not the resource-conflict error); the state, registry and call trace
are untouched. -/
theorem id_with_creation_params_validation (st : RemoteState)
    (reg : Registry) (env : AwsEnv) (vid gid : String) (n? : Option String)
    (cidr? : Option Cidr) (t? : Option String) (m? : Option String)
    (vp? : Option VpcInstance) (d? : Option String)
    (hv : (n?.isSome || cidr?.isSome || t?.isSome) = true)
    (hs : (m?.isSome || vp?.isSome || d?.isSome) = true) :
    vpcInit st reg env (some vid) n? cidr? t? =
      ⟨.error (.valueError
        "You must specify either a VPC id for an existing VPC or input parameters for a new VPC. You cannot do both."),
        st, reg, []⟩ ∧
    sgInit st reg env (some gid) m? vp? d? =
      ⟨.error (.valueError
        "You must specify either a security group id for an existing security group or input parameters for a new security group. You cannot do both."),
        st, reg, []⟩ := by
  constructor
  · simp [vpcInit, hv]
  · simp [sgInit, hs]

/-- Witness for the amended C6. -/
theorem id_with_creation_params_validation_witness :
    (((some "mynet" : Option String).isSome
        || (none : Option Cidr).isSome || (none : Option String).isSome)
      = true) ∧
    (((some "sg1" : Option String).isSome
        || (none : Option VpcInstance).isSome
        || (none : Option String).isSome) = true) ∧
    (vpcInit sampleState emptyReg sampleEnv (some "vpc-123") (some "mynet")
        none none =
      ⟨.error (.valueError
        "You must specify either a VPC id for an existing VPC or input parameters for a new VPC. You cannot do both."),
        sampleState, emptyReg, []⟩ ∧
    sgInit sampleState emptyReg sampleEnv (some "sg-42") (some "sg1")
        none none =
      ⟨.error (.valueError
        "You must specify either a security group id for an existing security group or input parameters for a new security group. You cannot do both."),
        sampleState, emptyReg, []⟩) :=
  ⟨by decide, by decide,
    id_with_creation_params_validation sampleState emptyReg sampleEnv
      "vpc-123" "sg-42" (some "mynet") none none (some "sg1") none none
      (by decide) (by decide)⟩

/-- Claim C9: when construction fails with the resource-conflict error
because the resolver found an existing resource and the caller also
supplied creation parameters, the registry is returned unchanged for
all three kinds. -/
theorem conflict_keeps_registry (st st' : RemoteState) (reg : Registry)
    (env : AwsEnv) (n nm rn : String) (a : VpcAttrs) (b : SgAttrs)
    (rA : RoleAttrs) (cs1 cs2 cs3 : List String) (v : VpcInstance)
    (cidr? : Option Cidr) (t? : Option String) (d? : Option String)
    (svc? : Option String)
    (hv : vpcExistsAlready st none (some n) = (.found a, st', cs1))
    (hcp : (cidr?.isSome || t?.isSome) = true)
    (hs : sgExistsAlready st none (some nm) (some v.vpcId) = (.found b, cs2))
    (hr : roleExistsAlready st rn = (some rA, cs3))
    (hsvc : svc?.isSome = true) :
    ((vpcInit st reg env none (some n) cidr? t?).result
        = .error (.resourceExists a.vpcId) ∧
      (vpcInit st reg env none (some n) cidr? t?).registry = reg) ∧
    ((sgInit st reg env none (some nm) (some v) d?).result
        = .error (.resourceExists b.securityGroupId) ∧
      (sgInit st reg env none (some nm) (some v) d?).registry = reg) ∧
    ((roleInit st reg rn none svc? [] false).result
        = .error (.resourceExists rn) ∧
      (roleInit st reg rn none svc? [] false).registry = reg) := by
  refine ⟨?_, ?_, ?_⟩
  · simp [vpcInit, hv, hcp]
  · simp [sgInit, hs]
  · simp [roleInit, hr, hsvc]

/-- Witness for C9 at the sample state. -/
theorem conflict_keeps_registry_witness :
    vpcExistsAlready sampleState none (some "mynet")
      = (.found sampleVpcAttrs, sampleState,
          ["describe_tags", "describe_vpcs", "describe_subnets"]) ∧
    (((some defaultVpcCidr : Option Cidr).isSome
        || (none : Option String).isSome) = true) ∧
    sgExistsAlready sampleState none (some "sg1")
        (some sampleVpcInstance.vpcId)
      = (.found sampleSgAttrs, ["describe_security_groups"]) ∧
    roleExistsAlready sampleState "r1"
      = (some sampleRoleAttrs, ["get_role", "list_attached_role_policies"]) ∧
    ((some "ec2" : Option String).isSome = true) ∧
    (((vpcInit sampleState emptyReg sampleEnv none (some "mynet")
        (some defaultVpcCidr) none).result
        = .error (.resourceExists sampleVpcAttrs.vpcId) ∧
      (vpcInit sampleState emptyReg sampleEnv none (some "mynet")
        (some defaultVpcCidr) none).registry = emptyReg) ∧
    ((sgInit sampleState emptyReg sampleEnv none (some "sg1")
        (some sampleVpcInstance) none).result
        = .error (.resourceExists sampleSgAttrs.securityGroupId) ∧
      (sgInit sampleState emptyReg sampleEnv none (some "sg1")
        (some sampleVpcInstance) none).registry = emptyReg) ∧
    ((roleInit sampleState emptyReg "r1" none (some "ec2") [] false).result
        = .error (.resourceExists "r1") ∧
      (roleInit sampleState emptyReg "r1" none (some "ec2") []
        false).registry = emptyReg)) :=
  ⟨by decide, by decide, by decide, by decide, by decide,
    conflict_keeps_registry sampleState sampleState emptyReg sampleEnv
      "mynet" "sg1" "r1" sampleVpcAttrs sampleSgAttrs sampleRoleAttrs
      ["describe_tags", "describe_vpcs", "describe_subnets"]
      ["describe_security_groups"]
      ["get_role", "list_attached_role_policies"] sampleVpcInstance
      (some defaultVpcCidr) none none (some "ec2")
      (by decide) (by decide) (by decide) (by decide) (by decide)⟩

/-- Claim C8: for each resource kind, adopting an existing remote
resource by its identifier (by name for Role) and then immediately
destroying it leaves zero entries for that resource's registry key in
the local registry. -/
theorem adopt_destroy_registry (st : RemoteState) (reg : Registry)
    (env : AwsEnv) (vid gid rn : String) (a : VpcAttrs) (b : SgAttrs)
    (rA : RoleAttrs) (cs1 cs2 cs3 csd : List String)
    (hv : vpcExistsAlready st (some vid) none = (.found a, st, cs1))
    (hnosg : (st.securityGroups.any (fun g => g.vpcId == a.vpcId)) = false)
    (hs : sgExistsAlready st (some gid) none none = (.found b, cs2))
    (hr : roleExistsAlready st rn = (some rA, cs3))
    (hces : (st.computeEnvs.filter (fun c => c.serviceRole == rA.arn)).filter
      (fun c => !(c.status == "DELETING" || c.status == "DELETED")) = [])
    (hip : st.instanceProfiles.find? (fun p => p.2 == rn) = none)
    (hdp : detachPolicies st rA.policies = .ok csd) :
    ((vpcInit st reg env (some vid) none none none).result
        = .ok ⟨a.name, true, a.ipv4Cidr, a.instanceTenancy, a.vpcId,
            a.subnetIds, false⟩ ∧
      (vpcClobber (vpcInit st reg env (some vid) none none none).remote
        (vpcInit st reg env (some vid) none none none).registry
        ⟨a.name, true, a.ipv4Cidr, a.instanceTenancy, a.vpcId, a.subnetIds,
          false⟩).result = .ok () ∧
      countEntries (vpcClobber
        (vpcInit st reg env (some vid) none none none).remote
        (vpcInit st reg env (some vid) none none none).registry
        ⟨a.name, true, a.ipv4Cidr, a.instanceTenancy, a.vpcId, a.subnetIds,
          false⟩).registry "vpc" a.vpcId = 0) ∧
    ((sgInit st reg env (some gid) none none none).result
        = .ok ⟨b.name, true, none, b.vpcId, b.description,
            b.securityGroupId, false⟩ ∧
      (sgClobber (sgInit st reg env (some gid) none none none).remote
        (sgInit st reg env (some gid) none none none).registry
        ⟨b.name, true, none, b.vpcId, b.description, b.securityGroupId,
          false⟩).result = .ok () ∧
      countEntries (sgClobber
        (sgInit st reg env (some gid) none none none).remote
        (sgInit st reg env (some gid) none none none).registry
        ⟨b.name, true, none, b.vpcId, b.description, b.securityGroupId,
          false⟩).registry "security-groups" b.securityGroupId = 0) ∧
    ((roleInit st reg rn none none [] false).result
        = .ok ⟨rn, true, rA.description, rA.service, rA.policies, rA.arn,
            "roles", false⟩ ∧
      (roleClobber (roleInit st reg rn none none [] false).remote
        (roleInit st reg rn none none [] false).registry
        ⟨rn, true, rA.description, rA.service, rA.policies, rA.arn, "roles",
          false⟩).result = .ok () ∧
      countEntries (roleClobber
        (roleInit st reg rn none none [] false).remote
        (roleInit st reg rn none none [] false).registry
        ⟨rn, true, rA.description, rA.service, rA.policies, rA.arn, "roles",
          false⟩).registry "roles" rn = 0) := by
  rw [vpcInit_adopt_by_id st st reg env vid a cs1 hv]
  rw [sgInit_adopt_by_id st reg env gid b cs2 hs]
  rw [roleInit_adopt_by_name st reg rn rA cs3 hr]
  obtain ⟨hres2, -, hreg2, -⟩ := sgClobber_components st
    (addResource reg "security-groups" b.securityGroupId b.name)
    ⟨b.name, true, none, b.vpcId, b.description, b.securityGroupId, false⟩
  obtain ⟨hres3, -, hreg3⟩ := roleClobber_success st
    (addResource reg "roles" rn rA.arn)
    ⟨rn, true, rA.description, rA.service, rA.policies, rA.arn, "roles",
      false⟩ csd rfl hces hip hdp
  refine ⟨⟨rfl, ?_, ?_⟩, ⟨rfl, hres2, ?_⟩, ⟨rfl, hres3, ?_⟩⟩
  · simp [vpcClobber, hnosg]
  · simp [vpcClobber, hnosg, countEntries_removeResource]
  · rw [hreg2]
    exact countEntries_removeResource _ _ _
  · rw [hreg3]
    exact countEntries_removeResource _ _ _

/-- Witness for C8 at the adoptable sample state. -/
theorem adopt_destroy_registry_witness :
    vpcExistsAlready sampleStateAdoptable (some "vpc-123") none
      = (.found sampleVpcAttrs, sampleStateAdoptable,
          ["describe_vpcs", "describe_subnets"]) ∧
    (sampleStateAdoptable.securityGroups.any
      (fun g => g.vpcId == sampleVpcAttrs.vpcId)) = false ∧
    sgExistsAlready sampleStateAdoptable (some "sg-77") none none
      = (.found sampleSgOtherAttrs, ["describe_security_groups"]) ∧
    roleExistsAlready sampleStateAdoptable "r1"
      = (some sampleRoleAttrs, ["get_role", "list_attached_role_policies"]) ∧
    ((sampleStateAdoptable.computeEnvs.filter
        (fun c => c.serviceRole == sampleRoleAttrs.arn)).filter
      (fun c => !(c.status == "DELETING" || c.status == "DELETED"))) = [] ∧
    sampleStateAdoptable.instanceProfiles.find?
      (fun p => p.2 == "r1") = none ∧
    detachPolicies sampleStateAdoptable sampleRoleAttrs.policies
      = .ok ["list_policies", "detach_role_policy"] ∧
    (((vpcInit sampleStateAdoptable emptyReg sampleEnv (some "vpc-123")
        none none none).result
        = .ok ⟨sampleVpcAttrs.name, true, sampleVpcAttrs.ipv4Cidr,
            sampleVpcAttrs.instanceTenancy, sampleVpcAttrs.vpcId,
            sampleVpcAttrs.subnetIds, false⟩ ∧
      (vpcClobber (vpcInit sampleStateAdoptable emptyReg sampleEnv
          (some "vpc-123") none none none).remote
        (vpcInit sampleStateAdoptable emptyReg sampleEnv (some "vpc-123")
          none none none).registry
        ⟨sampleVpcAttrs.name, true, sampleVpcAttrs.ipv4Cidr,
          sampleVpcAttrs.instanceTenancy, sampleVpcAttrs.vpcId,
          sampleVpcAttrs.subnetIds, false⟩).result = .ok () ∧
      countEntries (vpcClobber (vpcInit sampleStateAdoptable emptyReg
          sampleEnv (some "vpc-123") none none none).remote
        (vpcInit sampleStateAdoptable emptyReg sampleEnv (some "vpc-123")
          none none none).registry
        ⟨sampleVpcAttrs.name, true, sampleVpcAttrs.ipv4Cidr,
          sampleVpcAttrs.instanceTenancy, sampleVpcAttrs.vpcId,
          sampleVpcAttrs.subnetIds, false⟩).registry "vpc"
        sampleVpcAttrs.vpcId = 0) ∧
    ((sgInit sampleStateAdoptable emptyReg sampleEnv (some "sg-77") none
        none none).result
        = .ok ⟨sampleSgOtherAttrs.name, true, none, sampleSgOtherAttrs.vpcId,
            sampleSgOtherAttrs.description,
            sampleSgOtherAttrs.securityGroupId, false⟩ ∧
      (sgClobber (sgInit sampleStateAdoptable emptyReg sampleEnv
          (some "sg-77") none none none).remote
        (sgInit sampleStateAdoptable emptyReg sampleEnv (some "sg-77") none
          none none).registry
        ⟨sampleSgOtherAttrs.name, true, none, sampleSgOtherAttrs.vpcId,
          sampleSgOtherAttrs.description, sampleSgOtherAttrs.securityGroupId,
          false⟩).result = .ok () ∧
      countEntries (sgClobber (sgInit sampleStateAdoptable emptyReg
          sampleEnv (some "sg-77") none none none).remote
        (sgInit sampleStateAdoptable emptyReg sampleEnv (some "sg-77") none
          none none).registry
        ⟨sampleSgOtherAttrs.name, true, none, sampleSgOtherAttrs.vpcId,
          sampleSgOtherAttrs.description, sampleSgOtherAttrs.securityGroupId,
          false⟩).registry "security-groups"
        sampleSgOtherAttrs.securityGroupId = 0) ∧
    ((roleInit sampleStateAdoptable emptyReg "r1" none none []
        false).result
        = .ok ⟨"r1", true, sampleRoleAttrs.description,
            sampleRoleAttrs.service, sampleRoleAttrs.policies,
            sampleRoleAttrs.arn, "roles", false⟩ ∧
      (roleClobber (roleInit sampleStateAdoptable emptyReg "r1" none none
          [] false).remote
        (roleInit sampleStateAdoptable emptyReg "r1" none none []
          false).registry
        ⟨"r1", true, sampleRoleAttrs.description, sampleRoleAttrs.service,
          sampleRoleAttrs.policies, sampleRoleAttrs.arn, "roles",
          false⟩).result = .ok () ∧
      countEntries (roleClobber (roleInit sampleStateAdoptable emptyReg
          "r1" none none [] false).remote
        (roleInit sampleStateAdoptable emptyReg "r1" none none []
          false).registry
        ⟨"r1", true, sampleRoleAttrs.description, sampleRoleAttrs.service,
          sampleRoleAttrs.policies, sampleRoleAttrs.arn, "roles",
          false⟩).registry "roles" "r1" = 0)) :=
  ⟨by decide, by decide, by decide, by decide, by decide, by decide,
    by decide,
    adopt_destroy_registry sampleStateAdoptable emptyReg sampleEnv
      "vpc-123" "sg-77" "r1" sampleVpcAttrs sampleSgOtherAttrs
      sampleRoleAttrs ["describe_vpcs", "describe_subnets"]
      ["describe_security_groups"]
      ["get_role", "list_attached_role_policies"]
      ["list_policies", "detach_role_policy"]
      (by decide) (by decide) (by decide) (by decide) (by decide)
      (by decide) (by decide)⟩
